import Mathlib

/-!
Shallow embedding of the minirpc RPC transport and stream multiplexer
(src/lib/utils.ts: createTransport, createClient, createServer, backoff,
createChannel).  Frames are modelled at the level of their parsed JSON
content; JS promises are settle-once cells; the single-threaded JS
scheduler is made explicit where ordering matters (sendStream runs
synchronously up to its first await, chunk writes resume in later
microtasks).
-/

namespace MiniRPC

/-- Values carried inside RPC messages (abstraction of devalue-encodable
JS values; stream values appear on the wire as allocated integer ids). -/
inductive Val where
  | num (n : Int)
  | str (s : String)
  | streamId (id : Nat)
  deriving DecidableEq, Repr

/-- JS error-like values used as rejection reasons, close reasons and the
error field of responses.  The constructor connClosed models the
module-level connectionClosedException singleton; identity comparison
(error === connectionClosedException) is constructor equality. -/
inductive EVal where
  | connClosed
  | str (s : String)
  | err (msg : String)
  | boolTrue
  | undef
  deriving DecidableEq, Repr

/-- A call request, from src/lib/utils.ts type ClientMessage. -/
structure ClientMessage where
  id : Nat
  method : String
  params : List Val
  deriving DecidableEq, Repr

/-- The two shapes of a response body: a result or an error value. -/
inductive ROut where
  | result (v : Val)
  | error (e : EVal)
  deriving DecidableEq, Repr

/-- A call response, from src/lib/utils.ts type ServerMessage. -/
structure ServerMessage where
  id : Nat
  out : ROut
  deriving DecidableEq, Repr

/-- A message decoded from a JSON-array frame. -/
inductive Msg where
  | client (m : ClientMessage)
  | server (m : ServerMessage)
  deriving DecidableEq, Repr

/-- Stream control frames, from src/lib/utils.ts type StreamMessage:
cancel carries a reason string; a chunk either announces a following raw
payload of a named physical type (chunkRef) or carries an inline
devalue-encoded value (chunkData); done and errorFrame terminate. -/
inductive StreamMsg where
  | cancel (id : Nat) (reason : String)
  | chunkRef (id : Nat) (ty : String)
  | chunkData (id : Nat) (v : Val)
  | done (id : Nat)
  | errorFrame (id : Nat) (err : String)
  deriving DecidableEq, Repr

/-- Classification of the content of a text socket frame by what
JSON.parse would yield: the ping/pong sentinels, a JSON array (message),
a JSON object with a stream field, some other JSON object, or a plain
non-JSON string (raw string chunk payloads). -/
inductive TextContent where
  | ping
  | pong
  | jsonMsg (m : Msg)
  | jsonStream (sm : StreamMsg)
  | jsonOther
  | plain (s : String)
  deriving DecidableEq, Repr

/-- A socket frame: text or binary (binary carries its view type tag and
byte length; contents are irrelevant to the control flow). -/
inductive SocketData where
  | text (c : TextContent)
  | binary (ty : String) (size : Nat)
  deriving DecidableEq, Repr

/-- Result of convertBufferType: the raw payload retagged to the
physical type announced by the preceding chunk frame. -/
inductive ChunkVal where
  | textChunk (c : TextContent)
  | binChunk (ty : String) (size : Nat)
  deriving DecidableEq, Repr

/-- An item enqueued into an inbound sink (or read from an outbound
producer): either a raw string/binary payload or a devalue-encoded value. -/
inductive SinkItem where
  | rawItem (c : ChunkVal)
  | dataItem (v : Val)
  deriving DecidableEq, Repr

/-- State of a ReadableStreamDefaultController: readable with a buffer,
closed, or errored with a reason.  close and error are settle-once. -/
inductive SinkSt where
  | pendingSink (buf : List SinkItem)
  | closedSink
  | erroredSink (reason : EVal)
  deriving DecidableEq, Repr

def sinkEnqueue (s : SinkSt) (item : SinkItem) : SinkSt :=
  match s with
  | .pendingSink buf => .pendingSink (buf ++ [item])
  | s => s

def sinkClose (s : SinkSt) : SinkSt :=
  match s with
  | .pendingSink _ => .closedSink
  | s => s

def sinkError (s : SinkSt) (reason : EVal) : SinkSt :=
  match s with
  | .pendingSink _ => .erroredSink reason
  | s => s

/-- Association-list lookup on Nat keys (models Map.get). -/
def alookup {α : Type} (l : List (Nat × α)) (k : Nat) : Option α :=
  match l with
  | [] => none
  | p :: rest => if p.1 = k then some p.2 else alookup rest k

/-- Pointwise update of the value stored under a key (models mutating
the object held in a Map entry). -/
def asetVal {α : Type} (l : List (Nat × α)) (k : Nat) (f : α → α) : List (Nat × α) :=
  l.map (fun p => (p.1, if p.1 = k then f p.2 else p.2))

/-- Removal of a key (models Map.delete). -/
def aremove {α : Type} (l : List (Nat × α)) (k : Nat) : List (Nat × α) :=
  l.filter (fun p => p.1 ≠ k)

def ahasKey {α : Type} (l : List (Nat × α)) (k : Nat) : Bool :=
  (alookup l k).isSome

/-- AbortController.abort is settle-once: the first reason sticks. -/
def abortOnce (cur : Option EVal) (r : EVal) : Option EVal :=
  match cur with
  | none => some r
  | some x => some x

/-- The pending two-frame raw chunk slot (expectedChunk variable). -/
structure ExpectedChunk where
  id : Nat
  ty : String
  deriving DecidableEq, Repr

/-- State of one transport (the closure state of createTransport):
inbound maps stream id to its canceled flag (the inboundStreams table);
sinks holds the controllers of revived inbound streams, which persist as
JS objects even after the table entry is deleted; outbound maps stream
id to its abort reason once fired (the outboundStreams table of
AbortControllers). -/
structure Transport where
  inbound : List (Nat × Bool)
  sinks : List (Nat × SinkSt)
  outbound : List (Nat × Option EVal)
  expectedChunk : Option ExpectedChunk
  lastMessageTime : Nat
  nextStreamId : Nat
  closed : Bool
  deriving DecidableEq, Repr

/-- Errors thrown by the transport's invariant checks while parsing. -/
inductive PErr where
  | closedViolation
  | unknownStream (id : Nat)
  | unexpectedBinary
  | badConvert
  | malformed
  deriving DecidableEq, Repr

def arrayBufferViewNames : List String :=
  ["DataView", "Int8Array", "Uint8Array", "Uint8ClampedArray", "Int16Array",
   "Uint16Array", "Int32Array", "Uint32Array", "Float32Array", "Float64Array",
   "BigInt64Array", "BigUint64Array"]

/-- convertBufferType from src/lib/utils.ts: a string payload requires
the announced type string, a binary payload is retagged to ArrayBuffer
or one of the known view constructors; anything else fails the
invariant. -/
def convertBufferType (d : SocketData) (ty : String) : Except PErr ChunkVal :=
  match d with
  | .text c => if ty = "string" then .ok (.textChunk c) else .error .badConvert
  | .binary _ size =>
      if ty = "ArrayBuffer" then .ok (.binChunk "ArrayBuffer" size)
      else if arrayBufferViewNames.contains ty then .ok (.binChunk ty size)
      else .error .badConvert

/-- Frames written to the socket by the transport. -/
inductive OutFrame where
  | pingFrame
  | pongFrame
  | cancelFrame (id : Nat) (reason : String)
  | msgFrame (m : Msg) (streamIds : List Nat)
  | chunkRefFrame (id : Nat) (ty : String)
  | payloadFrame (id : Nat) (c : ChunkVal)
  | chunkDataFrame (id : Nat) (v : Val)
  | doneFrame (id : Nat)
  | streamErrorFrame (id : Nat) (err : String)
  deriving DecidableEq, Repr

/-- Outcome of one receiveMessage call: the transport state after all
mutations up to the return or throw point, the frames written during the
call, and either the parsed message (if any) or the thrown invariant
error. -/
structure ParseOut where
  t : Transport
  sends : List OutFrame
  result : Except PErr (Option Msg)
  deriving Repr

/-- receiveMessage from createTransport (src/lib/utils.ts lines 630-689),
with the closed check first, the lastMessageTime update, the expectedChunk
two-frame protocol, ping/pong handling, and the stream control frames.
Mutations performed before a thrown invariant persist in the returned
state, exactly as in the source. -/
def Transport.parse (t : Transport) (now : Nat) (d : SocketData) : ParseOut :=
  if t.closed then ⟨t, [], .error .closedViolation⟩ else
  let t1 : Transport := { t with lastMessageTime := now }
  match t1.expectedChunk with
  | some ec =>
      match alookup t1.inbound ec.id with
      | none => ⟨t1, [], .error (.unknownStream ec.id)⟩
      | some canceled =>
          let t2 : Transport := { t1 with expectedChunk := none }
          if canceled then ⟨t2, [], .ok none⟩
          else
            match convertBufferType d ec.ty with
            | .error e => ⟨t2, [], .error e⟩
            | .ok cv =>
                ⟨{ t2 with sinks := (asetVal t2.sinks ec.id
                    (fun s => sinkEnqueue s (.rawItem cv))) }, [], .ok none⟩
  | none =>
      match d with
      | .binary _ _ => ⟨t1, [], .error .unexpectedBinary⟩
      | .text .ping => ⟨t1, [.pongFrame], .ok none⟩
      | .text .pong => ⟨t1, [], .ok none⟩
      | .text (.jsonMsg m) => ⟨t1, [], .ok (some m)⟩
      | .text .jsonOther => ⟨t1, [], .error .malformed⟩
      | .text (.plain _) => ⟨t1, [], .error .malformed⟩
      | .text (.jsonStream sm) =>
          match sm with
          | .cancel id reason =>
              match alookup t1.outbound id with
              | none => ⟨t1, [], .error (.unknownStream id)⟩
              | some _ =>
                  ⟨{ t1 with outbound := (asetVal t1.outbound id
                      (fun cur => abortOnce cur (.str reason))) }, [], .ok none⟩
          | .chunkRef id ty =>
              ⟨{ t1 with expectedChunk := some ⟨id, ty⟩ }, [], .ok none⟩
          | .chunkData id v =>
              match alookup t1.inbound id with
              | none => ⟨t1, [], .error (.unknownStream id)⟩
              | some canceled =>
                  if canceled then ⟨t1, [], .ok none⟩
                  else ⟨{ t1 with sinks := (asetVal t1.sinks id
                      (fun s => sinkEnqueue s (.dataItem v))) }, [], .ok none⟩
          | .done id =>
              match alookup t1.inbound id with
              | none => ⟨t1, [], .error (.unknownStream id)⟩
              | some canceled =>
                  let t2 : Transport := { t1 with inbound := aremove t1.inbound id }
                  if canceled then ⟨t2, [], .ok none⟩
                  else ⟨{ t2 with sinks := asetVal t2.sinks id sinkClose }, [], .ok none⟩
          | .errorFrame id e =>
              match alookup t1.inbound id with
              | none => ⟨t1, [], .error (.unknownStream id)⟩
              | some canceled =>
                  let t2 : Transport := { t1 with inbound := aremove t1.inbound id }
                  if canceled then ⟨t2, [], .ok none⟩
                  else ⟨{ t2 with sinks := (asetVal t2.sinks id
                      (fun s => sinkError s (.str e))) }, [], .ok none⟩

/-- close from createTransport (src/lib/utils.ts lines 697-707): refuse
when already closed; set the closed flag; error every controller held in
the inbound table with the reason and mark it canceled; fire every
outbound AbortController with the reason.  Table entries are not
removed, matching the source. -/
def Transport.close (t : Transport) (reason : EVal) : Except PErr Transport :=
  if t.closed then .error .closedViolation
  else .ok { t with
    closed := true,
    inbound := t.inbound.map (fun p => (p.1, true)),
    sinks := t.sinks.map (fun p =>
      (p.1, if ahasKey t.inbound p.1 then sinkError p.2 reason else p.2)),
    outbound := t.outbound.map (fun p => (p.1, abortOnce p.2 reason)) }

/-- One stream value embedded in an outgoing message: the items its
producer will read, and whether the producer ends normally or throws. -/
structure OutStreamVal where
  chunks : List SinkItem
  failure : Option String
  deriving DecidableEq, Repr

def chunkTy (c : ChunkVal) : String :=
  match c with
  | .textChunk _ => "string"
  | .binChunk ty _ => ty

/-- Frames the producer loop of sendStream writes for one item: a raw
string/binary item is the atomic chunkRef + payload pair, any other
value is a single inline data chunk. -/
def chunkWrites (id : Nat) (item : SinkItem) : List OutFrame :=
  match item with
  | .rawItem c => [.chunkRefFrame id (chunkTy c), .payloadFrame id c]
  | .dataItem v => [.chunkDataFrame id v]

/-- All frames written by the producer task of sendStream for one
outbound stream (src/lib/utils.ts lines 571-609). -/
def producerFrames (id : Nat) (s : OutStreamVal) : List OutFrame :=
  s.chunks.flatMap (chunkWrites id) ++
    [match s.failure with
     | none => .doneFrame id
     | some e => .streamErrorFrame id e]

/-- Observable events of a send: registration of an outbound stream's
AbortController, and a frame written to the socket. -/
inductive WEvent where
  | registerOut (id : Nat)
  | wire (f : OutFrame)
  deriving DecidableEq, Repr

/-- transport.send of a message containing stream values, made temporal.
devalue.stringify runs the ReadableStream reducer once per stream value
in traversal order; each call allocates nextStreamId++ and invokes
sendStream, which runs synchronously up to its first await and therefore
registers the outbound AbortController before stringify returns.  The
serialized message frame is then written, and only in later microtasks
do the producer loops resume and write their chunk frames.  The event
list records exactly this order. -/
def Transport.sendMessage (t : Transport) (m : Msg) (streams : List OutStreamVal) :
    Except PErr (Transport × List WEvent) :=
  if t.closed then .error .closedViolation
  else
    let ids := (List.range streams.length).map (fun i => t.nextStreamId + i)
    .ok ({ t with
            nextStreamId := t.nextStreamId + streams.length,
            outbound := t.outbound ++ ids.map (fun i => (i, (none : Option EVal))) },
         ids.map WEvent.registerOut
           ++ [WEvent.wire (.msgFrame m ids)]
           ++ (ids.zip streams).flatMap (fun p => (producerFrames p.1 p.2).map WEvent.wire))

/-- ping from createTransport (src/lib/utils.ts lines 711-718): refuse
when closed, write the ping sentinel, remember the send time. -/
def Transport.ping (t : Transport) (now : Nat) : Except PErr (List OutFrame × Nat) :=
  if t.closed then .error .closedViolation else .ok ([.pingFrame], now)

/-- The deferred callback of ping: skipped when the transport has been
closed in the meantime, otherwise reports whether a message arrived at
or after the ping send time. -/
def pingCheck (t : Transport) (pingTime : Nat) : Option Bool :=
  if t.closed then none else some (decide (pingTime ≤ t.lastMessageTime))

/-- The periodic pinger callback installed by createClient.connect
(src/lib/utils.ts lines 894-898): a dead ping closes the socket with
code 1001, an alive one does nothing. -/
def onPingAlive (alive : Bool) : Option Nat :=
  if alive then none else some 1001

/-- Whether a wire frame belongs to the stream with the given id. -/
def isStreamFrameFor (f : OutFrame) (id : Nat) : Bool :=
  match f with
  | .chunkRefFrame i _ => i = id
  | .payloadFrame i _ => i = id
  | .chunkDataFrame i _ => i = id
  | .doneFrame i => i = id
  | .streamErrorFrame i _ => i = id
  | _ => false

/-- Feed a list of timestamped socket frames through the transport
parser, keeping the state (the adapter's message events). -/
def processArrivals (t : Transport) (arr : List (Nat × SocketData)) : Transport :=
  match arr with
  | [] => t
  | a :: rest => processArrivals ((t.parse a.1 a.2).t) rest

/-- Settle-once promise cell. -/
inductive PState where
  | pending
  | resolvedP (v : Val)
  | rejectedP (e : EVal)
  deriving DecidableEq, Repr

def settleReject (s : PState) (e : EVal) : PState :=
  match s with
  | .pending => .rejectedP e
  | s => s

def settleResolve (s : PState) (v : Val) : PState :=
  match s with
  | .pending => .resolvedP v
  | s => s

/-- Closure state of createClient (src/lib/utils.ts lines 832-1000):
the pending-query table, the monotone request id, the optionally
attached transport, the disconnected-mode message queue, and a log of
the messages handed to transport.send since creation. -/
structure ClientState where
  queries : List (Nat × PState)
  nextRequestId : Nat
  transport : Option Transport
  messageQueue : Option (List ClientMessage)
  sent : List ClientMessage
  deriving Repr

/-- The adapter close callback of createClient.connect (src/lib/utils.ts
lines 883-892): the transport is closed with connectionClosedException
and detached, and every handle in the query table is rejected with that
same singleton.  The table is not cleared, matching the source; settled
cells are unaffected because a promise settles once. -/
def clientOnClose (c : ClientState) : ClientState :=
  { c with
    transport := none,
    queries := c.queries.map (fun p => (p.1, settleReject p.2 .connClosed)) }

/-- query from createClient (src/lib/utils.ts lines 931-942): allocate
the id, build the message, send it immediately when a transport is
attached (a closed transport would throw inside the executor, skipping
registration), otherwise append it to the queue; register the pending
slot. -/
def clientQuery (c : ClientState) (method : String) (params : List Val) : ClientState :=
  let id := c.nextRequestId
  let msg : ClientMessage := ⟨id, method, params⟩
  let c1 : ClientState := { c with nextRequestId := id + 1 }
  match c.transport with
  | some t =>
      if t.closed then c1
      else { c1 with sent := c1.sent ++ [msg], queries := c1.queries ++ [(id, .pending)] }
  | none =>
      { c1 with
        messageQueue := some ((c.messageQueue.getD []) ++ [msg]),
        queries := c1.queries ++ [(id, .pending)] }

/-- The successful-attach step of createClient.connect (src/lib/utils.ts
lines 899-901): install the fresh transport, flush the queued messages
to it in order, clear the queue. -/
def clientAttach (c : ClientState) (t : Transport) : ClientState :=
  { c with
    transport := some t,
    sent := c.sent ++ (c.messageQueue.getD []),
    messageQueue := none }

/-- The messages a run of calls builds, with sequential ids from n. -/
def mkMsgs (n : Nat) (calls : List (String × List Val)) : List ClientMessage :=
  match calls with
  | [] => []
  | q :: rest => ⟨n, q.1, q.2⟩ :: mkMsgs (n + 1) rest

def runCalls (c : ClientState) (calls : List (String × List Val)) : ClientState :=
  match calls with
  | [] => c
  | q :: rest => runCalls (clientQuery c q.1 q.2) rest

/-- Outcome of delivering a response to the pending-query table
(src/lib/utils.ts lines 916-925): an unknown id is logged and discarded;
otherwise the entry is removed and the future resolved with the result
or rejected with the error string if the error is a string, else with
the generic request-failed string. -/
def rejectionValue (e : EVal) : EVal :=
  match e with
  | .str s => .str s
  | _ => .str "request failed"

def applyServerMessage (queries : List (Nat × PState)) (m : ServerMessage) :
    List (Nat × PState) × Option (Nat × PState) × Option String :=
  match alookup queries m.id with
  | none => (queries, none, some ("Unknown response ID: " ++ toString m.id))
  | some st =>
      (aremove queries m.id,
       some (m.id,
         match m.out with
         | .result v => settleResolve st v
         | .error e => settleReject st (rejectionValue e)),
       none)

/-- The invariant error carried to onError when parsing throws. -/
def perrVal (pe : PErr) : EVal :=
  match pe with
  | .closedViolation => .err "closed"
  | .unknownStream id => .err ("unknown stream " ++ toString id)
  | .unexpectedBinary => .err "unexpected binary"
  | .badConvert => .err "bad chunk conversion"
  | .malformed => .err "malformed frame"

/-- receiveSocketData from createClient (src/lib/utils.ts lines 910-929):
parse through the attached transport inside a try/catch whose handler
only reports to onError; route a parsed server message to the query
table.  Returns the new client state, the error reported to onError (if
any), and the settlement the caller's future observes (if any). -/
def receiveSocketData (c : ClientState) (now : Nat) (d : SocketData) :
    ClientState × Option EVal × Option (Nat × PState) :=
  match c.transport with
  | none => (c, some (.err "invariant"), none)
  | some t =>
      let po := t.parse now d
      let c1 : ClientState := { c with transport := some po.t }
      match po.result with
      | .error pe => (c1, some (perrVal pe), none)
      | .ok none => (c1, none, none)
      | .ok (some (.client _)) => (c1, some (.err "invariant"), none)
      | .ok (some (.server sm)) =>
          let r := applyServerMessage c1.queries sm
          ({ c1 with queries := r.1 },
           r.2.2.map (fun s => .err s),
           r.2.1)

/-- The catch handler of promise.subscribe (src/lib/utils.ts lines
974-984), as the action it takes on a failure of the future or of the
inbound sequence read loop: the connectionClosedException singleton
(identity comparison) triggers a re-issue of the same method and params
with the same observer and options; any other error goes to
options.error when provided, else to the client error sink. -/
inductive SubscribeFailureAction where
  | resubscribe (method : String) (params : List Val) (observer : Nat) (options : Nat)
  | reportToOptions (e : EVal)
  | reportToClient (e : EVal)
  deriving DecidableEq, Repr

def subscribeOnFailure (method : String) (params : List Val) (observer : Nat)
    (options : Nat) (hasErrorHandler : Bool) (e : EVal) : SubscribeFailureAction :=
  if e = .connClosed then .resubscribe method params observer options
  else if hasErrorHandler then .reportToOptions e
  else .reportToClient e

/-- Result of a server route handler: normal return, a thrown
RPCClientError with its message, or any other thrown error. -/
inductive HandlerResult where
  | success (v : Val)
  | clientError (msg : String)
  | thrown (e : EVal)
  deriving DecidableEq, Repr

def slookup {α : Type} (l : List (String × α)) (k : String) : Option α :=
  match l with
  | [] => none
  | p :: rest => if p.1 = k then some p.2 else slookup rest k

/-- The wrapper createServer.router installs around each route
(src/lib/utils.ts lines 1121-1132): success responds with the result;
an RPCClientError responds with its message string; any other error
responds with the literal true and reports the raw error locally. -/
def routeWrap (fn : List Val → HandlerResult) (id : Nat) (params : List Val) :
    ServerMessage × Option EVal :=
  match fn params with
  | .success v => (⟨id, .result v⟩, none)
  | .clientError m => (⟨id, .error (.str m)⟩, none)
  | .thrown e => (⟨id, .error .boolTrue⟩, some e)

/-- Dispatch of one ClientMessage by createServer.connect.message
(src/lib/utils.ts lines 1169-1183): an unknown method is answered with
the unknown-method error string; otherwise the wrapped route runs. -/
def handleRequest (methods : List (String × (List Val → HandlerResult)))
    (req : ClientMessage) : ServerMessage × Option EVal :=
  match slookup methods req.method with
  | none => (⟨req.id, .error (.str ("Unknown method: " ++ req.method))⟩, none)
  | some fn => routeWrap fn req.id req.params

/-- Backoff configuration (src/lib/utils.ts lines 846-854); maxDelay is
none for the default Infinity; retry models the predicate applied to the
error and the 1-indexed attempt number. -/
structure BackoffOptions where
  startingDelay : Rat
  timeMultiple : Rat
  maxDelay : Option Rat
  jitter : Bool
  numOfAttempts : Nat
  retry : EVal → Nat → Bool

/-- Math.min against a possibly-infinite cap. -/
def jsMin (a : Rat) (m : Option Rat) : Rat :=
  match m with
  | none => a
  | some b => min a b

/-- Math.round: floor of x + 1/2. -/
def jsRound (x : Rat) : Int := (x + 1/2).floor

/-- Outcome of one backoff call: the error is re-thrown with no sleep,
or a sleep of the computed length precedes the next attempt, or the
ambient signal was already aborted. -/
inductive BackoffResult where
  | rethrow (e : EVal)
  | sleep (delayMs : Rat)
  | abortedB (reason : EVal)
  deriving DecidableEq, Repr

/-- backoff from src/lib/utils.ts lines 763-792, called by the connect
loop with the 1-indexed attempt number of the failure just observed.
rand stands for the Math.random draw used when jitter is on. -/
def backoff (e : EVal) (attempt : Nat) (o : BackoffOptions)
    (signalAborted : Bool) (abortReason : EVal) (rand : Rat) : BackoffResult :=
  if signalAborted then .abortedB abortReason
  else if o.retry e attempt = false ∨ o.numOfAttempts ≤ attempt then .rethrow e
  else
    let base := jsMin (o.startingDelay * o.timeMultiple ^ (attempt - 1)) o.maxDelay
    .sleep (if o.jitter then ((jsRound (rand * base) : Int) : Rat) else base)

/-- One subscriber of a channel: its stream's delivered item queue and
whether it is currently in the subs set. -/
structure ChSub where
  queue : List Val
  active : Bool
  deriving DecidableEq, Repr

/-- Closure state of createChannel (src/lib/utils.ts lines 1025-1056):
all controllers ever created by pull, keyed by an identifier; only
active ones are members of the subs set. -/
structure Channel where
  entries : List (Nat × ChSub)
  deriving DecidableEq, Repr

/-- The size getter: the cardinality of the subs set. -/
def chSize (ch : Channel) : Nat :=
  ch.entries.countP (fun p => p.2.active)

/-- push: enqueue the payload to every controller in the subs set. -/
def chPush (ch : Channel) (v : Val) : Channel :=
  ⟨ch.entries.map (fun p =>
    (p.1, if p.2.active then { p.2 with queue := p.2.queue ++ [v] } else p.2))⟩

def chPushMany (ch : Channel) (vs : List Val) : Channel :=
  match vs with
  | [] => ch
  | v :: rest => chPushMany (chPush ch v) rest

/-- The synchronous prefix of pull's start callback, before the await of
onSubscribe: the controller exists but has not been added to subs. -/
def pullStart (ch : Channel) (sid : Nat) : Channel :=
  ⟨ch.entries ++ [(sid, ⟨[], false⟩)]⟩

/-- The resumption of start once onSubscribe resolved with v0: enqueue
v0 into the subscriber's own stream, then add it to subs. -/
def pullComplete (ch : Channel) (sid : Nat) (v0 : Val) : Channel :=
  ⟨asetVal ch.entries sid (fun s => ⟨s.queue ++ [v0], true⟩)⟩

/-- The cancel callback up to the point where onUnsubscribe is awaited:
subs.delete runs first, so the returned state is the one onUnsubscribe
observes. -/
def chCancel (ch : Channel) (sid : Nat) : Channel :=
  ⟨asetVal ch.entries sid (fun s => { s with active := false })⟩

def exceptOk {ε α : Type} (x : Except ε α) : Bool :=
  match x with
  | .ok _ => true
  | .error _ => false

/-- The state produced by a successful Transport.close, named for reuse
in proofs. -/
def closedTransport (t : Transport) (reason : EVal) : Transport :=
  { t with
    closed := true,
    inbound := t.inbound.map (fun p => (p.1, true)),
    sinks := t.sinks.map (fun p =>
      (p.1, if ahasKey t.inbound p.1 then sinkError p.2 reason else p.2)),
    outbound := t.outbound.map (fun p => (p.1, abortOnce p.2 reason)) }

/-! ## Helper lemmas -/

theorem alookup_mapVal {α β : Type} (l : List (Nat × α)) (f : Nat → α → β) (k : Nat) :
    alookup (l.map (fun p => (p.1, f p.1 p.2))) k = (alookup l k).map (f k) := by
  induction l with
  | nil => rfl
  | cons p rest ih =>
      by_cases h : p.1 = k
      · simp [alookup, h]
      · simp [alookup, h, ih]

theorem alookup_asetVal {α : Type} (l : List (Nat × α)) (k j : Nat) (f : α → α) :
    alookup (asetVal l k f) j = (alookup l j).map (fun v => if j = k then f v else v) := by
  induction l with
  | nil => rfl
  | cons p rest ih =>
      by_cases hj : p.1 = j
      · subst hj
        by_cases hk : p.1 = k <;> simp [asetVal, alookup, hk]
      · simp only [asetVal] at ih ⊢
        simp [alookup, hj, ih]

theorem alookup_append_none {α : Type} (l1 l2 : List (Nat × α)) (k : Nat)
    (h : alookup l1 k = none) : alookup (l1 ++ l2) k = alookup l2 k := by
  induction l1 with
  | nil => rfl
  | cons p rest ih =>
      by_cases hk : p.1 = k
      · simp [alookup, hk] at h
      · simp only [alookup, hk, if_false, List.cons_append] at h ⊢
        simp [alookup, hk] at h ⊢
        exact ih h

/-! ## Claim theorems -/

/-- C1: after close(reason) the transport refuses every further send,
parse and ping; every inbound stream registered in the table at that
moment is marked canceled and its sink (if still readable) is errored
with reason; every outbound stream's AbortController is fired with
reason. -/
theorem transport_close_seals_and_tears_down (t : Transport) (reason : EVal)
    (hopen : t.closed = false) :
    ∃ t2, t.close reason = .ok t2 ∧
      t2.closed = true ∧
      (∀ now d, (t2.parse now d).result = .error .closedViolation ∧
        (t2.parse now d).t = t2 ∧ (t2.parse now d).sends = []) ∧
      (∀ m ss, t2.sendMessage m ss = .error .closedViolation) ∧
      (∀ now, t2.ping now = .error .closedViolation) ∧
      (∀ id c, alookup t.inbound id = some c → alookup t2.inbound id = some true) ∧
      (∀ id buf, (alookup t.inbound id).isSome = true →
        alookup t.sinks id = some (.pendingSink buf) →
        alookup t2.sinks id = some (.erroredSink reason)) ∧
      (∀ id, alookup t.outbound id = some none →
        alookup t2.outbound id = some (some reason)) := by
  refine ⟨closedTransport t reason, ?_, rfl, ?_, ?_, ?_, ?_, ?_, ?_⟩
  · simp [Transport.close, closedTransport, hopen]
  · intro now d
    refine ⟨?_, ?_, ?_⟩ <;> simp [Transport.parse, closedTransport]
  · intro m ss
    simp [Transport.sendMessage, closedTransport]
  · intro now
    simp [Transport.ping, closedTransport]
  · intro id c h
    unfold closedTransport
    dsimp only
    rw [alookup_mapVal t.inbound (fun _ _ => true) id]
    simp [h]
  · intro id buf hin hsink
    unfold closedTransport
    dsimp only
    rw [alookup_mapVal t.sinks
      (fun key v => if ahasKey t.inbound key = true then sinkError v reason else v) id]
    rw [hsink]
    simp [ahasKey, hin, sinkError]
  · intro id h
    unfold closedTransport
    dsimp only
    rw [alookup_mapVal t.outbound (fun _ v => abortOnce v reason) id]
    rw [h]
    simp [abortOnce]

theorem transport_close_seals_and_tears_down_witness :
    ∃ t2, Transport.close
        ⟨[(1, false)], [(1, .pendingSink [])], [(2, none)], none, 0, 3, false⟩
        EVal.connClosed = .ok t2 ∧
      t2.closed = true ∧
      (t2.parse 7 (.text .ping)).result = .error .closedViolation ∧
      t2.sendMessage (.server ⟨1, .result (.num 0)⟩) [] = .error .closedViolation ∧
      t2.ping 9 = .error .closedViolation ∧
      alookup t2.inbound 1 = some true ∧
      alookup t2.sinks 1 = some (.erroredSink .connClosed) ∧
      alookup t2.outbound 2 = some (some .connClosed) := by
  obtain ⟨t2, h1, h2, h3, h4, h5, h6, h7, h8⟩ :=
    transport_close_seals_and_tears_down
      ⟨[(1, false)], [(1, .pendingSink [])], [(2, none)], none, 0, 3, false⟩
      EVal.connClosed rfl
  exact ⟨t2, h1, h2, (h3 7 (.text .ping)).1,
    h4 (.server ⟨1, .result (.num 0)⟩) [], h5 9,
    h6 1 false rfl, h7 1 [] rfl rfl, h8 2 rfl⟩

theorem settleReject_idem (s : PState) (e : EVal) :
    settleReject (settleReject s e) e = settleReject s e := by
  cases s <;> rfl

/-- C2: when the attached connection closes, every query pending at that
moment is rejected with the connectionClosedException singleton; already
settled cells are untouched and a second close changes nothing, so each
future observes its rejection exactly once; the transport is detached. -/
theorem pending_queries_rejected_once_on_close (c : ClientState) (id : Nat)
    (hp : alookup c.queries id = some .pending) :
    alookup (clientOnClose c).queries id = some (.rejectedP .connClosed) ∧
    (∀ j v, alookup c.queries j = some (.resolvedP v) →
      alookup (clientOnClose c).queries j = some (.resolvedP v)) ∧
    (∀ j e, alookup c.queries j = some (.rejectedP e) →
      alookup (clientOnClose c).queries j = some (.rejectedP e)) ∧
    (clientOnClose (clientOnClose c)).queries = (clientOnClose c).queries ∧
    (clientOnClose c).transport = none := by
  refine ⟨?_, ?_, ?_, ?_, rfl⟩
  · unfold clientOnClose
    dsimp only
    rw [alookup_mapVal c.queries (fun _ v => settleReject v .connClosed) id]
    rw [hp]
    simp [settleReject]
  · intro j v h
    unfold clientOnClose
    dsimp only
    rw [alookup_mapVal c.queries (fun _ v => settleReject v .connClosed) j]
    rw [h]
    simp [settleReject]
  · intro j e h
    unfold clientOnClose
    dsimp only
    rw [alookup_mapVal c.queries (fun _ v => settleReject v .connClosed) j]
    rw [h]
    simp [settleReject]
  · unfold clientOnClose
    dsimp only
    rw [List.map_map]
    apply List.map_congr_left
    intro p _
    simp [Function.comp, settleReject_idem]

theorem pending_queries_rejected_once_on_close_witness :
    alookup (clientOnClose ⟨[(1, .pending), (2, .resolvedP (.num 5))], 3, none, none, []⟩).queries 1 =
      some (.rejectedP .connClosed) ∧
    alookup (clientOnClose ⟨[(1, .pending), (2, .resolvedP (.num 5))], 3, none, none, []⟩).queries 2 =
      some (.resolvedP (.num 5)) ∧
    (clientOnClose (clientOnClose ⟨[(1, .pending), (2, .resolvedP (.num 5))], 3, none, none, []⟩)).queries =
      (clientOnClose ⟨[(1, .pending), (2, .resolvedP (.num 5))], 3, none, none, []⟩).queries := by
  obtain ⟨h1, h2, h3, h4, h5⟩ :=
    pending_queries_rejected_once_on_close
      ⟨[(1, .pending), (2, .resolvedP (.num 5))], 3, none, none, []⟩ 1 rfl
  exact ⟨h1, h2 2 (.num 5) rfl, h4⟩

/-- C3: the catch handler of subscribe re-issues the same method with
the same params, observer and options exactly when the failure is the
connectionClosedException singleton; any other failure is reported to
the error handler without re-issuing; and the close path of a plain
call sends nothing new (sent log and queue unchanged), its future simply
rejects. -/
theorem subscribe_resubscribes_only_on_connection_closed
    (method : String) (params : List Val) (observer options : Nat)
    (hasErrorHandler : Bool) (e : EVal) (c : ClientState) :
    (subscribeOnFailure method params observer options hasErrorHandler .connClosed =
      .resubscribe method params observer options) ∧
    (e ≠ .connClosed →
      subscribeOnFailure method params observer options hasErrorHandler e =
        (if hasErrorHandler then .reportToOptions e else .reportToClient e)) ∧
    ((clientOnClose c).sent = c.sent ∧
     (clientOnClose c).messageQueue = c.messageQueue ∧
     (clientOnClose c).nextRequestId = c.nextRequestId) := by
  refine ⟨?_, ?_, rfl, rfl, rfl⟩
  · simp [subscribeOnFailure]
  · intro hne
    simp [subscribeOnFailure, hne]

theorem subscribe_resubscribes_only_on_connection_closed_witness :
    (subscribeOnFailure "counter" [.num 3] 0 0 false .connClosed =
      .resubscribe "counter" [.num 3] 0 0) ∧
    (subscribeOnFailure "counter" [.num 3] 0 0 false (.str "boom") =
      .reportToClient (.str "boom")) ∧
    (clientOnClose ⟨[], 1, none, none, []⟩).sent = [] := by
  have h := subscribe_resubscribes_only_on_connection_closed
    "counter" [.num 3] 0 0 false (.str "boom") ⟨[], 1, none, none, []⟩
  refine ⟨h.1, ?_, h.2.2.1⟩
  have h2 := h.2.1 (by decide)
  simpa using h2

/-- C4 counterexample: on a fresh connection, a cancel frame for the
unknown stream id 7 is parsed; the claim says the transport is then
closed with the violation as reason, but in the code the invariant error
is caught by receiveSocketData and only reported to onError: the
transport stays attached and open. -/
theorem unknown_stream_not_fatal_cex :
    (receiveSocketData ⟨[], 1, some ⟨[], [], [], none, 0, 1, false⟩, none, []⟩ 5
        (.text (.jsonStream (.cancel 7 "gone")))).1.transport.map Transport.closed =
      some false ∧
    (receiveSocketData ⟨[], 1, some ⟨[], [], [], none, 0, 1, false⟩, none, []⟩ 5
        (.text (.jsonStream (.cancel 7 "gone")))).2.1 =
      some (perrVal (.unknownStream 7)) := by
  decide

/-- C4 amended: every stream frame kind (cancel against the outbound
table; chunk, done and error against the inbound table) referencing an
id absent from its table makes the invariant throw; the error is caught
and delivered to the connection's error sink, and the transport is NOT
closed: it keeps accepting sends and parses. -/
theorem unknown_stream_error_reported_not_fatal (t : Transport) (now id : Nat)
    (reason : String) (v : Val) (emsg : String) (c : ClientState)
    (hopen : t.closed = false) (hec : t.expectedChunk = none)
    (hout : alookup t.outbound id = none) (hin : alookup t.inbound id = none)
    (hct : c.transport = some t) :
    ∀ d ∈ [SocketData.text (.jsonStream (.cancel id reason)),
           SocketData.text (.jsonStream (.chunkData id v)),
           SocketData.text (.jsonStream (.done id)),
           SocketData.text (.jsonStream (.errorFrame id emsg))],
      (t.parse now d).result = .error (.unknownStream id) ∧
      (receiveSocketData c now d).2.1 = some (perrVal (.unknownStream id)) ∧
      (receiveSocketData c now d).1.transport = some (t.parse now d).t ∧
      (t.parse now d).t.closed = false ∧
      (∀ m, exceptOk ((t.parse now d).t.sendMessage m []) = true) ∧
      ((t.parse now d).t.parse now (.text .pong)).result = .ok none := by
  have key : ∀ d : SocketData,
      t.parse now d = ⟨{ t with lastMessageTime := now }, [], .error (.unknownStream id)⟩ →
      ((t.parse now d).result = .error (.unknownStream id) ∧
       (receiveSocketData c now d).2.1 = some (perrVal (.unknownStream id)) ∧
       (receiveSocketData c now d).1.transport = some (t.parse now d).t ∧
       (t.parse now d).t.closed = false ∧
       (∀ m, exceptOk ((t.parse now d).t.sendMessage m []) = true) ∧
       ((t.parse now d).t.parse now (.text .pong)).result = .ok none) := by
    intro d hp
    refine ⟨?_, ?_, ?_, ?_, ?_, ?_⟩
    · rw [hp]
    · simp [receiveSocketData, hct, hp]
    · simp [receiveSocketData, hct, hp]
    · rw [hp]
      exact hopen
    · intro m
      rw [hp]
      simp [Transport.sendMessage, exceptOk, hopen]
    · rw [hp]
      unfold Transport.parse
      simp [hopen, hec]
  intro d hd
  simp only [List.mem_cons, List.not_mem_nil, or_false] at hd
  rcases hd with rfl | rfl | rfl | rfl
  · refine key _ ?_
    unfold Transport.parse
    simp [hopen, hec, hout]
  · refine key _ ?_
    unfold Transport.parse
    simp [hopen, hec, hin]
  · refine key _ ?_
    unfold Transport.parse
    simp [hopen, hec, hin]
  · refine key _ ?_
    unfold Transport.parse
    simp [hopen, hec, hin]

theorem unknown_stream_error_reported_not_fatal_witness :
    (Transport.parse ⟨[], [], [], none, 0, 1, false⟩ 5
        (.text (.jsonStream (.cancel 7 "gone")))).result = .error (.unknownStream 7) ∧
    (Transport.parse ⟨[], [], [], none, 0, 1, false⟩ 5
        (.text (.jsonStream (.cancel 7 "gone")))).t.closed = false ∧
    (Transport.parse ⟨[], [], [], none, 0, 1, false⟩ 5
        (.text (.jsonStream (.done 7)))).result = .error (.unknownStream 7) ∧
    (Transport.parse ⟨[], [], [], none, 0, 1, false⟩ 5
        (.text (.jsonStream (.done 7)))).t.closed = false ∧
    (Transport.parse ⟨[], [], [], none, 0, 1, false⟩ 5
        (.text (.jsonStream (.chunkData 7 (.num 3))))).result =
      .error (.unknownStream 7) ∧
    (Transport.parse ⟨[], [], [], none, 0, 1, false⟩ 5
        (.text (.jsonStream (.errorFrame 7 "bad")))).result =
      .error (.unknownStream 7) ∧
    exceptOk ((Transport.parse ⟨[], [], [], none, 0, 1, false⟩ 5
        (.text (.jsonStream (.cancel 7 "gone")))).t.sendMessage
        (.server ⟨1, .result (.num 0)⟩) []) = true := by
  have h := unknown_stream_error_reported_not_fatal ⟨[], [], [], none, 0, 1, false⟩
    5 7 "gone" (.num 3) "bad"
    ⟨[], 1, some ⟨[], [], [], none, 0, 1, false⟩, none, []⟩ rfl rfl rfl rfl rfl
  obtain ⟨c1, _, _, c4, c5, _⟩ := h (.text (.jsonStream (.cancel 7 "gone"))) (by simp)
  obtain ⟨d1, _, _, d4, _, _⟩ := h (.text (.jsonStream (.done 7))) (by simp)
  obtain ⟨k1, _⟩ := h (.text (.jsonStream (.chunkData 7 (.num 3)))) (by simp)
  obtain ⟨e1, _⟩ := h (.text (.jsonStream (.errorFrame 7 "bad"))) (by simp)
  exact ⟨c1, c4, d1, d4, k1, e1, c5 (.server ⟨1, .result (.num 0)⟩)⟩

/-- C5: an unknown method is answered with the unknown-method error
string; a handler throwing RPCClientError produces a response carrying
its message, which the caller's future rejects with verbatim; any other
handler error produces the error-true response, the raw error goes to
the server's local error sink, and the caller's future rejects with the
request-failed string. -/
theorem dispatch_error_surfacing
    (methods : List (String × (List Val → HandlerResult)))
    (name : String) (id : Nat) (params : List Val)
    (fn : List Val → HandlerResult) (msg : String) (e : EVal) (v : Val) :
    (slookup methods name = none →
      handleRequest methods ⟨id, name, params⟩ =
        (⟨id, .error (.str ("Unknown method: " ++ name))⟩, none)) ∧
    (slookup methods name = some fn → fn params = .clientError msg →
      handleRequest methods ⟨id, name, params⟩ = (⟨id, .error (.str msg)⟩, none) ∧
      applyServerMessage [(id, .pending)] ⟨id, .error (.str msg)⟩ =
        ([], some (id, .rejectedP (.str msg)), none)) ∧
    (slookup methods name = some fn → fn params = .thrown e →
      handleRequest methods ⟨id, name, params⟩ = (⟨id, .error .boolTrue⟩, some e) ∧
      applyServerMessage [(id, .pending)] ⟨id, .error .boolTrue⟩ =
        ([], some (id, .rejectedP (.str "request failed")), none)) ∧
    (slookup methods name = some fn → fn params = .success v →
      handleRequest methods ⟨id, name, params⟩ = (⟨id, .result v⟩, none)) := by
  refine ⟨?_, ?_, ?_, ?_⟩
  · intro h
    simp [handleRequest, h]
  · intro h hfn
    constructor
    · simp [handleRequest, h, routeWrap, hfn]
    · simp [applyServerMessage, alookup, aremove, settleReject, rejectionValue]
  · intro h hfn
    constructor
    · simp [handleRequest, h, routeWrap, hfn]
    · simp [applyServerMessage, alookup, aremove, settleReject, rejectionValue]
  · intro h hfn
    simp [handleRequest, h, routeWrap, hfn]

theorem dispatch_error_surfacing_witness :
    (handleRequest [("boom", fun _ => .thrown (.err "kaput"))] ⟨4, "nope", []⟩ =
      (⟨4, .error (.str ("Unknown method: " ++ "nope"))⟩, none)) ∧
    (handleRequest [("boom", fun _ => .thrown (.err "kaput"))] ⟨4, "boom", []⟩ =
      (⟨4, .error .boolTrue⟩, some (.err "kaput")) ∧
     applyServerMessage [(4, .pending)] ⟨4, .error .boolTrue⟩ =
      ([], some (4, .rejectedP (.str "request failed")), none)) := by
  have h1 := (dispatch_error_surfacing [("boom", fun _ => .thrown (.err "kaput"))]
    "nope" 4 [] (fun _ => .thrown (.err "kaput")) "" (.err "kaput") (.num 0)).1 rfl
  have h3 := ((dispatch_error_surfacing [("boom", fun _ => .thrown (.err "kaput"))]
    "boom" 4 [] (fun _ => .thrown (.err "kaput")) "" (.err "kaput") (.num 0)).2.2.1) rfl rfl
  exact ⟨h1, h3⟩

/-- C6: backoff computes the delay before retry as the capped
exponential of the 1-indexed attempt number, replaces it by a rounded
uniform draw bounded by that delay when jitter is on, and re-throws the
error with no sleep as soon as the retry predicate declines or the
attempt count reaches numOfAttempts. -/
theorem backoff_delay_formula_and_short_circuit
    (o : BackoffOptions) (e : EVal) (attempt : Nat) (rand : Rat) :
    ((o.retry e attempt = false ∨ o.numOfAttempts ≤ attempt) →
      backoff e attempt o false .undef rand = .rethrow e) ∧
    (o.retry e attempt = true → attempt < o.numOfAttempts → o.jitter = false →
      backoff e attempt o false .undef rand =
        .sleep (jsMin (o.startingDelay * o.timeMultiple ^ (attempt - 1)) o.maxDelay)) ∧
    (o.retry e attempt = true → attempt < o.numOfAttempts → o.jitter = true →
      backoff e attempt o false .undef rand =
        .sleep ((jsRound (rand * jsMin (o.startingDelay * o.timeMultiple ^ (attempt - 1))
          o.maxDelay) : Int) : Rat)) ∧
    (0 ≤ rand → rand ≤ 1 →
      0 ≤ jsMin (o.startingDelay * o.timeMultiple ^ (attempt - 1)) o.maxDelay →
      0 ≤ rand * jsMin (o.startingDelay * o.timeMultiple ^ (attempt - 1)) o.maxDelay ∧
      rand * jsMin (o.startingDelay * o.timeMultiple ^ (attempt - 1)) o.maxDelay ≤
        jsMin (o.startingDelay * o.timeMultiple ^ (attempt - 1)) o.maxDelay) := by
  refine ⟨?_, ?_, ?_, ?_⟩
  · intro h
    rcases h with h | h
    · simp [backoff, h]
    · simp [backoff, h]
  · intro h1 h2 h3
    have hnle : ¬ (o.numOfAttempts ≤ attempt) := by omega
    simp [backoff, h1, hnle, h3]
  · intro h1 h2 h3
    have hnle : ¬ (o.numOfAttempts ≤ attempt) := by omega
    simp [backoff, h1, hnle, h3]
  · intro hr0 hr1 hb
    constructor
    · exact mul_nonneg hr0 hb
    · calc rand * jsMin (o.startingDelay * o.timeMultiple ^ (attempt - 1)) o.maxDelay
          ≤ 1 * jsMin (o.startingDelay * o.timeMultiple ^ (attempt - 1)) o.maxDelay :=
            mul_le_mul_of_nonneg_right hr1 hb
        _ = jsMin (o.startingDelay * o.timeMultiple ^ (attempt - 1)) o.maxDelay :=
            one_mul _

theorem jsRound_100 : jsRound 100 = 100 := by
  have h : (jsRound 100 : Int) = Int.floor ((100 : Rat) + 1/2) := rfl
  rw [h, Int.floor_eq_iff]
  norm_num

theorem backoff_delay_formula_and_short_circuit_witness :
    (backoff (.str "down") 3
      ⟨100, 2, some 300, false, 3, fun _ _ => true⟩ false .undef (1/2) =
      .rethrow (.str "down")) ∧
    (backoff (.str "down") 1
      ⟨100, 2, some 300, false, 1, fun _ _ => false⟩ false .undef (1/2) =
      .rethrow (.str "down")) ∧
    (backoff (.str "down") 2
      ⟨100, 2, some 300, false, 3, fun _ _ => true⟩ false .undef (1/2) =
      .sleep 200) ∧
    (backoff (.str "down") 2
      ⟨100, 2, some 300, true, 3, fun _ _ => true⟩ false .undef (1/2) =
      .sleep 100) ∧
    (0 ≤ (1/2 : Rat) * jsMin (100 * 2 ^ (2 - 1)) (some 300) ∧
      (1/2 : Rat) * jsMin (100 * 2 ^ (2 - 1)) (some 300) ≤
        jsMin (100 * 2 ^ (2 - 1)) (some 300)) := by
  refine ⟨?_, ?_, ?_, ?_, ?_⟩
  · exact (backoff_delay_formula_and_short_circuit
      ⟨100, 2, some 300, false, 3, fun _ _ => true⟩ (.str "down") 3 (1/2)).1
      (Or.inr (by decide))
  · exact (backoff_delay_formula_and_short_circuit
      ⟨100, 2, some 300, false, 1, fun _ _ => false⟩ (.str "down") 1 (1/2)).1
      (Or.inl rfl)
  · have h := (backoff_delay_formula_and_short_circuit
      ⟨100, 2, some 300, false, 3, fun _ _ => true⟩ (.str "down") 2 (1/2)).2.1
      rfl (by decide) rfl
    rw [h]
    simp only [jsMin, min_def, BackoffResult.sleep.injEq]
    norm_num
  · have h := (backoff_delay_formula_and_short_circuit
      ⟨100, 2, some 300, true, 3, fun _ _ => true⟩ (.str "down") 2 (1/2)).2.2.1
      rfl (by decide) rfl
    rw [h]
    simp only [jsMin, min_def, BackoffResult.sleep.injEq]
    norm_num [jsRound_100]
  · exact (backoff_delay_formula_and_short_circuit
      ⟨100, 2, some 300, false, 3, fun _ _ => true⟩ (.str "down") 2 (1/2)).2.2.2
      (by norm_num) (by norm_num) (by simp only [jsMin, min_def]; norm_num)

theorem runCalls_detached (c : ClientState) (calls : List (String × List Val))
    (h : c.transport = none) :
    (runCalls c calls).transport = none ∧
    (runCalls c calls).sent = c.sent ∧
    (runCalls c calls).messageQueue.getD [] =
      c.messageQueue.getD [] ++ mkMsgs c.nextRequestId calls ∧
    (runCalls c calls).nextRequestId = c.nextRequestId + calls.length := by
  induction calls generalizing c with
  | nil => simp [runCalls, mkMsgs, h]
  | cons q rest ih =>
      obtain ⟨ih1, ih2, ih3, ih4⟩ := ih (clientQuery c q.1 q.2) (by simp [clientQuery, h])
      refine ⟨?_, ?_, ?_, ?_⟩
      · simpa [runCalls] using ih1
      · simp only [runCalls]
        rw [ih2]
        simp [clientQuery, h]
      · simp only [runCalls]
        rw [ih3]
        simp [clientQuery, h, mkMsgs]
      · simp only [runCalls]
        rw [ih4]
        simp [clientQuery, h]
        omega

theorem runCalls_attached (c : ClientState) (calls : List (String × List Val))
    (t : Transport) (h : c.transport = some t) (ht : t.closed = false) :
    (runCalls c calls).transport = some t ∧
    (runCalls c calls).sent = c.sent ++ mkMsgs c.nextRequestId calls ∧
    (runCalls c calls).messageQueue = c.messageQueue := by
  induction calls generalizing c with
  | nil => simp [runCalls, mkMsgs, h]
  | cons q rest ih =>
      obtain ⟨ih1, ih2, ih3⟩ := ih (clientQuery c q.1 q.2) (by simp [clientQuery, h, ht])
      refine ⟨?_, ?_, ?_⟩
      · simpa [runCalls] using ih1
      · simp only [runCalls]
        rw [ih2]
        simp [clientQuery, h, ht, mkMsgs]
      · simp only [runCalls]
        rw [ih3]
        simp [clientQuery, h, ht]

/-- C7: all requests issued while no transport is attached are buffered,
and on the next successful attach they are sent in the order the calls
were made, all before any request issued after the attach. -/
theorem queued_requests_flushed_in_order (c : ClientState)
    (pre post : List (String × List Val)) (t : Transport)
    (hd : c.transport = none) (hq : c.messageQueue = none) (ht : t.closed = false) :
    (runCalls (clientAttach (runCalls c pre) t) post).sent =
      c.sent ++ mkMsgs c.nextRequestId pre ++
        mkMsgs (c.nextRequestId + pre.length) post := by
  obtain ⟨d1, d2, d3, d4⟩ := runCalls_detached c pre hd
  obtain ⟨a1, a2, a3⟩ :=
    runCalls_attached (clientAttach (runCalls c pre) t) post t rfl ht
  rw [a2]
  simp [clientAttach, d2, d3, d4, hq]

theorem queued_requests_flushed_in_order_witness :
    (runCalls (clientAttach
        (runCalls ⟨[], 1, none, none, []⟩ [("add", [.num 1]), ("list", [])])
        ⟨[], [], [], none, 0, 1, false⟩)
      [("after", [.num 9])]).sent =
      [⟨1, "add", [.num 1]⟩, ⟨2, "list", []⟩, ⟨3, "after", [.num 9]⟩] := by
  have h := queued_requests_flushed_in_order ⟨[], 1, none, none, []⟩
    [("add", [.num 1]), ("list", [])] [("after", [.num 9])]
    ⟨[], [], [], none, 0, 1, false⟩ rfl rfl rfl
  rw [h]
  decide

theorem alookup_none_of_keys_lt {α : Type} (l : List (Nat × α)) (id bound : Nat)
    (h : ∀ k ∈ l, k.1 < bound) (hge : bound ≤ id) : alookup l id = none := by
  induction l with
  | nil => rfl
  | cons p rest ih =>
      have hp := h p (by simp)
      have hne : ¬ (p.1 = id) := by omega
      simp only [alookup, hne, if_false]
      exact ih (fun k hk => h k (by simp [hk]))

theorem alookup_map_const {β : Type} (ids : List Nat) (v : β) (id : Nat) (h : id ∈ ids) :
    alookup (ids.map (fun i => (i, v))) id = some v := by
  induction ids with
  | nil => cases h
  | cons a rest ih =>
      by_cases ha : a = id
      · simp [alookup, ha]
      · rcases List.mem_cons.mp h with h1 | h1
        · exact absurd h1.symm ha
        · simp [alookup, ha, ih h1]

/-- C8: serializing a message holding lazy-sequence values allocates a
fresh id per stream and registers the outbound cancel handle during
serialization, before anything is written; every chunk, done or error
frame of that stream appears on the wire strictly after both the
registration event and the enclosing message frame carrying the id. -/
theorem stream_registration_precedes_frames (t : Transport) (m : Msg)
    (streams : List OutStreamVal) (hopen : t.closed = false)
    (hfresh : ∀ k ∈ t.outbound, k.1 < t.nextStreamId) :
    ∃ (t2 : Transport) (evs : List WEvent),
      t.sendMessage m streams = .ok (t2, evs) ∧
      (∀ id ∈ (List.range streams.length).map (fun i => t.nextStreamId + i),
        alookup t.outbound id = none ∧
        alookup t2.outbound id = some none ∧
        (∀ (j : Nat) (f : OutFrame), evs[j]? = some (.wire f) →
          isStreamFrameFor f id = true →
          (∃ i, i < j ∧ evs[i]? = some (.registerOut id)) ∧
          (∃ i, i < j ∧ evs[i]? = some (.wire (.msgFrame m
            ((List.range streams.length).map (fun k => t.nextStreamId + k))))))) := by
  have hsend : t.sendMessage m streams = .ok
      ({ t with
          nextStreamId := t.nextStreamId + streams.length,
          outbound := t.outbound ++
            ((List.range streams.length).map (fun i => t.nextStreamId + i)).map
              (fun i => (i, (none : Option EVal))) },
        ((List.range streams.length).map (fun i => t.nextStreamId + i)).map WEvent.registerOut
          ++ [WEvent.wire (.msgFrame m ((List.range streams.length).map (fun i => t.nextStreamId + i)))]
          ++ ((((List.range streams.length).map (fun i => t.nextStreamId + i)).zip streams).flatMap
              (fun p => (producerFrames p.1 p.2).map WEvent.wire))) := by
    unfold Transport.sendMessage
    simp [hopen]
  refine ⟨_, _, hsend, ?_⟩
  intro id hid
  rcases List.mem_map.mp hid with ⟨i0, hi0r, hideq⟩
  have hi0n : i0 < streams.length := List.mem_range.mp hi0r
  have hge : t.nextStreamId ≤ id := by omega
  have hnone : alookup t.outbound id = none :=
    alookup_none_of_keys_lt t.outbound id t.nextStreamId hfresh hge
  have hA : (((List.range streams.length).map (fun i => t.nextStreamId + i)).map
      WEvent.registerOut).length = streams.length := by
    simp
  refine ⟨hnone, ?_, ?_⟩
  · dsimp only
    rw [alookup_append_none _ _ _ hnone]
    exact alookup_map_const _ _ _ hid
  · intro j f hj hf
    have hjn : streams.length < j := by
      by_contra hle
      push_neg at hle
      rcases lt_or_eq_of_le hle with hlt | heq
      · rw [List.append_assoc] at hj
        rw [List.getElem?_append_left (by rw [hA]; exact hlt)] at hj
        rw [List.getElem?_map] at hj
        rw [List.getElem?_map] at hj
        rw [List.getElem?_range hlt] at hj
        simp at hj
      · subst heq
        rw [List.append_assoc] at hj
        rw [List.getElem?_append_right (by rw [hA])] at hj
        rw [hA] at hj
        simp at hj
        subst hj
        simp [isStreamFrameFor] at hf
    constructor
    · refine ⟨i0, by omega, ?_⟩
      rw [List.append_assoc]
      rw [List.getElem?_append_left (by rw [hA]; exact hi0n)]
      rw [List.getElem?_map]
      rw [List.getElem?_map]
      rw [List.getElem?_range hi0n]
      simp [hideq]
    · refine ⟨streams.length, hjn, ?_⟩
      rw [List.append_assoc]
      rw [List.getElem?_append_right (by rw [hA])]
      rw [hA]
      simp

theorem stream_registration_precedes_frames_witness :
    ∃ (t2 : Transport) (evs : List WEvent),
      Transport.sendMessage ⟨[], [], [], none, 0, 1, false⟩
        (.client ⟨1, "watch", []⟩) [⟨[.dataItem (.num 7)], none⟩] = .ok (t2, evs) ∧
      alookup t2.outbound 1 = some none ∧
      (∀ (j : Nat) (f : OutFrame), evs[j]? = some (.wire f) →
        isStreamFrameFor f 1 = true →
        (∃ i, i < j ∧ evs[i]? = some (.registerOut 1)) ∧
        (∃ i, i < j ∧ evs[i]? =
          some (.wire (.msgFrame (.client ⟨1, "watch", []⟩) [1])))) := by
  obtain ⟨t2, evs, h1, h2⟩ := stream_registration_precedes_frames
    ⟨[], [], [], none, 0, 1, false⟩ (.client ⟨1, "watch", []⟩)
    [⟨[.dataItem (.num 7)], none⟩] rfl (by simp)
  have h3 := h2 1 (by decide)
  exact ⟨t2, evs, h1, h3.2.1, h3.2.2⟩

theorem parse_preserves (t : Transport) (now : Nat) (d : SocketData)
    (h : t.closed = false) :
    (t.parse now d).t.lastMessageTime = now ∧ (t.parse now d).t.closed = false := by
  unfold Transport.parse
  rw [if_neg (by simp [h])]
  refine ⟨?_, ?_⟩ <;>
  · dsimp only
    repeat' split
    all_goals simp [h]

theorem pingCheck_processArrivals (t : Transport) (p : Nat)
    (arr : List (Nat × SocketData)) (hopen : t.closed = false)
    (harr : ∀ a ∈ arr, p ≤ a.1) :
    pingCheck (processArrivals t arr) p = some true ↔
      (arr ≠ [] ∨ p ≤ t.lastMessageTime) := by
  induction arr generalizing t with
  | nil => simp [processArrivals, pingCheck, hopen]
  | cons a rest ih =>
      have hp := parse_preserves t a.1 a.2 hopen
      have hpa : p ≤ a.1 := harr a (by simp)
      have ih2 := ih ((t.parse a.1 a.2).t) hp.2 (fun b hb => harr b (by simp [hb]))
      have heq : pingCheck (processArrivals t (a :: rest)) p = some true := by
        show pingCheck (processArrivals ((t.parse a.1 a.2).t) rest) p = some true
        exact ih2.mpr (Or.inr (by rw [hp.1]; exact hpa))
      simp [heq]

/-- C9: ping on an open transport writes the ping sentinel and records
the send time; the deferred check reports alive exactly when a message
arrived at or after that moment (any arrival stamps lastMessageTime);
the periodic pinger closes the socket with code 1001 on a dead report
and does nothing on a live one; and an incoming ping frame is answered
with a pong frame. -/
theorem ping_liveness_semantics (t : Transport) (now p : Nat)
    (arr : List (Nat × SocketData)) (hopen : t.closed = false)
    (hec : t.expectedChunk = none) :
    t.ping now = .ok ([.pingFrame], now) ∧
    ((∀ a ∈ arr, p ≤ a.1) →
      (pingCheck (processArrivals t arr) p = some true ↔
        (arr ≠ [] ∨ p ≤ t.lastMessageTime))) ∧
    onPingAlive false = some 1001 ∧
    onPingAlive true = none ∧
    (t.parse now (.text .ping)).sends = [.pongFrame] ∧
    (t.parse now (.text .ping)).result = .ok none := by
  refine ⟨?_, ?_, rfl, rfl, ?_, ?_⟩
  · simp [Transport.ping, hopen]
  · intro harr
    exact pingCheck_processArrivals t p arr hopen harr
  · unfold Transport.parse
    simp [hopen, hec]
  · unfold Transport.parse
    simp [hopen, hec]

theorem ping_liveness_semantics_witness :
    Transport.ping ⟨[], [], [], none, 0, 1, false⟩ 5 = .ok ([.pingFrame], 5) ∧
    pingCheck (processArrivals ⟨[], [], [], none, 0, 1, false⟩ [(6, .text .pong)]) 5 =
      some true ∧
    pingCheck (processArrivals ⟨[], [], [], none, 0, 1, false⟩ []) 5 ≠ some true ∧
    onPingAlive false = some 1001 ∧
    (Transport.parse ⟨[], [], [], none, 0, 1, false⟩ 5 (.text .ping)).sends =
      [.pongFrame] := by
  have h := ping_liveness_semantics ⟨[], [], [], none, 0, 1, false⟩ 5 5
    [(6, .text .pong)] rfl rfl
  have h' := ping_liveness_semantics ⟨[], [], [], none, 0, 1, false⟩ 5 5 [] rfl rfl
  refine ⟨h.1, ?_, ?_, h.2.2.1, h.2.2.2.2.1⟩
  · exact (h.2.1 (by simp)).mpr (Or.inl (by simp))
  · intro hc
    have hfalse := (h'.2.1 (by simp)).mp hc
    simp at hfalse

theorem alookup_chPush (ch : Channel) (v : Val) (sid : Nat) :
    alookup (chPush ch v).entries sid =
      (alookup ch.entries sid).map
        (fun s => if s.active = true then ⟨s.queue ++ [v], s.active⟩ else s) := by
  unfold chPush
  dsimp only
  rw [alookup_mapVal ch.entries
    (fun _ s => if s.active = true then ⟨s.queue ++ [v], s.active⟩ else s) sid]

theorem chPushMany_lookup_inactive (ch : Channel) (vs : List Val) (sid : Nat)
    (q : List Val) (h : alookup ch.entries sid = some ⟨q, false⟩) :
    alookup (chPushMany ch vs).entries sid = some ⟨q, false⟩ := by
  induction vs generalizing ch with
  | nil => exact h
  | cons v rest ih =>
      have h2 : alookup (chPush ch v).entries sid = some ⟨q, false⟩ := by
        rw [alookup_chPush, h]
        simp
      exact ih (chPush ch v) h2

theorem chPushMany_lookup_active (ch : Channel) (vs : List Val) (sid : Nat)
    (q : List Val) (h : alookup ch.entries sid = some ⟨q, true⟩) :
    alookup (chPushMany ch vs).entries sid = some ⟨q ++ vs, true⟩ := by
  induction vs generalizing ch q with
  | nil => simpa using h
  | cons v rest ih =>
      have h2 : alookup (chPush ch v).entries sid = some ⟨q ++ [v], true⟩ := by
        rw [alookup_chPush, h]
        simp
      have h3 := ih (chPush ch v) (q ++ [v]) h2
      simpa [List.append_assoc] using h3

/-- C10: a subscriber created by pull is not in the subs set while
onSubscribe runs (size unchanged, pushes made then are not delivered to
it); its first delivered item is the value onSubscribe returned,
followed by later pushes in order; cancelling removes it from the set
before onUnsubscribe is awaited, so later pushes no longer reach it. -/
theorem channel_subscribe_semantics (ch : Channel) (sid : Nat) (v0 : Val)
    (vs ws : List Val) (hfresh : alookup ch.entries sid = none) :
    chSize (pullStart ch sid) = chSize ch ∧
    alookup (chPushMany (pullStart ch sid) vs).entries sid = some ⟨[], false⟩ ∧
    alookup (chPushMany (pullComplete (chPushMany (pullStart ch sid) vs) sid v0)
      ws).entries sid = some ⟨v0 :: ws, true⟩ ∧
    alookup (chCancel (chPushMany (pullComplete (chPushMany (pullStart ch sid) vs)
      sid v0) ws) sid).entries sid = some ⟨v0 :: ws, false⟩ ∧
    alookup (chPush (chCancel (chPushMany (pullComplete (chPushMany (pullStart ch sid)
      vs) sid v0) ws) sid) v0).entries sid = some ⟨v0 :: ws, false⟩ := by
  have h0 : alookup (pullStart ch sid).entries sid = some ⟨[], false⟩ := by
    unfold pullStart
    dsimp only
    rw [alookup_append_none _ _ _ hfresh]
    simp [alookup]
  have h1 := chPushMany_lookup_inactive (pullStart ch sid) vs sid [] h0
  have h2 : alookup (pullComplete (chPushMany (pullStart ch sid) vs) sid v0).entries
      sid = some ⟨[v0], true⟩ := by
    unfold pullComplete
    dsimp only
    rw [alookup_asetVal]
    rw [h1]
    simp
  have h3 := chPushMany_lookup_active _ ws sid [v0] h2
  have h3' : alookup (chPushMany (pullComplete (chPushMany (pullStart ch sid) vs) sid
      v0) ws).entries sid = some ⟨v0 :: ws, true⟩ := by
    simpa using h3
  have h4 : alookup (chCancel (chPushMany (pullComplete (chPushMany (pullStart ch sid)
      vs) sid v0) ws) sid).entries sid = some ⟨v0 :: ws, false⟩ := by
    unfold chCancel
    dsimp only
    rw [alookup_asetVal]
    rw [h3']
    simp
  have h5 : alookup (chPush (chCancel (chPushMany (pullComplete (chPushMany
      (pullStart ch sid) vs) sid v0) ws) sid) v0).entries sid =
      some ⟨v0 :: ws, false⟩ := by
    rw [alookup_chPush, h4]
    simp
  refine ⟨?_, h1, h3', h4, h5⟩
  unfold chSize pullStart
  dsimp only
  rw [List.countP_append]
  simp

theorem channel_subscribe_semantics_witness :
    chSize (pullStart ⟨[(1, ⟨[], true⟩)]⟩ 2) = chSize ⟨[(1, ⟨[], true⟩)]⟩ ∧
    alookup (chPushMany (pullStart ⟨[(1, ⟨[], true⟩)]⟩ 2) [.num 7]).entries 2 =
      some ⟨[], false⟩ ∧
    alookup (chPushMany (pullComplete (chPushMany (pullStart ⟨[(1, ⟨[], true⟩)]⟩ 2)
      [.num 7]) 2 (.num 10)) [.num 8]).entries 2 = some ⟨[.num 10, .num 8], true⟩ ∧
    alookup (chCancel (chPushMany (pullComplete (chPushMany
      (pullStart ⟨[(1, ⟨[], true⟩)]⟩ 2) [.num 7]) 2 (.num 10)) [.num 8]) 2).entries 2 =
      some ⟨[.num 10, .num 8], false⟩ := by
  have h := channel_subscribe_semantics ⟨[(1, ⟨[], true⟩)]⟩ 2 (.num 10)
    [.num 7] [.num 8] rfl
  exact ⟨h.1, h.2.1, h.2.2.1, h.2.2.2.1⟩

end MiniRPC
